import Mathlib

/-!
Shallow embedding of `scripts/webhostmost_login.py` (Webhostmost automated
login helper).  Pure string manipulation is translated directly; browser
interactions (Playwright page probes) are modelled as oracle functions the
embedded code consumes, and the observable side effects of `main` and of the
retry loop (browser launch, page open/close, sleeps, Telegram notification
calls) are recorded as explicit event traces.  Exceptions are modelled with
`Except` over an inductive `Exc` type mirroring the exception classes the
script distinguishes.
-/

namespace Webhostmost

/-- Python's `in` operator on strings restricted to a character-list view:
`leadMatch pat l` is true when `pat` is an initial segment of `l`. -/
def leadMatch : List Char → List Char → Bool
  | [], _ => true
  | _ :: _, [] => false
  | a :: as, b :: bs => a == b && leadMatch as bs

/-- Here `charsContain pat l` is true when `pat` occurs contiguously inside `l`. -/
def charsContain : List Char → List Char → Bool
  | pat, [] => leadMatch pat []
  | pat, b :: bs => leadMatch pat (b :: bs) || charsContain pat bs

/-- Python's `pat in s` substring test. -/
def strContains (s pat : String) : Bool :=
  charsContain pat.data s.data

/-- Python truthiness of an optional string: `None` and `""` are falsy. -/
def truthy : Option String → Bool
  | none => false
  | some s => !s.data.isEmpty

/-- Python's `x or default` for strings: `default` when `x` is empty. -/
def orDefault (x default : String) : String :=
  if x.data.isEmpty then default else x

/-- Python's `str.strip()`: remove leading and trailing whitespace. -/
def pyStrip (s : String) : String :=
  ⟨((s.data.dropWhile Char.isWhitespace).reverse.dropWhile Char.isWhitespace).reverse⟩

/-- Python's `str.lower()` (character-wise lowering). -/
def pyLower (s : String) : String :=
  ⟨s.data.map Char.toLower⟩

/-- Python's `str.split()` with no separator: split on whitespace runs,
dropping empty words.  `acc` holds the characters of the word in progress,
in reverse. -/
def splitWsAux : List Char → List Char → List String
  | [], acc => if acc.isEmpty then [] else [String.mk acc.reverse]
  | c :: cs, acc =>
    if c.isWhitespace then
      (if acc.isEmpty then [] else [String.mk acc.reverse]) ++ splitWsAux cs []
    else splitWsAux cs (c :: acc)

/-- Python's `value.strip().split()`. -/
def pySplitWs (s : String) : List String :=
  splitWsAux s.data []

/-- Function `_compact_text` (script lines 310-314): collapse all whitespace runs to
single spaces and truncate to 400 characters (Python slicing counts code
points, hence `List.take` on the character list). -/
def compact_text (value : String) : String :=
  if value.data.isEmpty then ""
  else ⟨(String.intercalate " " (pySplitWs value)).data.take 400⟩

/-- The exception classes the script distinguishes.  `OtherError` stands for
any further exception type (carrying its class name and message). -/
inductive Exc where
  | TwoFactorOrCaptchaDetected (msg : String)
  | TransientPageState (msg : String)
  | PlaywrightTimeoutError (msg : String)
  | RuntimeError (msg : String)
  | OtherError (cls : String) (msg : String)
deriving DecidableEq, Repr

/-- Python `str(exc)`. -/
def excStr : Exc → String
  | .TwoFactorOrCaptchaDetected m => m
  | .TransientPageState m => m
  | .PlaywrightTimeoutError m => m
  | .RuntimeError m => m
  | .OtherError _ m => m

/-- Python `exc.__class__.__name__`. -/
def excClassName : Exc → String
  | .TwoFactorOrCaptchaDetected _ => "TwoFactorOrCaptchaDetected"
  | .TransientPageState _ => "TransientPageState"
  | .PlaywrightTimeoutError _ => "PlaywrightTimeoutError"
  | .RuntimeError _ => "RuntimeError"
  | .OtherError c _ => c

/-- Script constants (lines 20-24). -/
def CLOUDFLARE_TIMEOUT_SECONDS : Nat := 30

def CLOUDFLARE_POLL_INTERVAL_SECONDS : Nat := 2

def MAX_ATTEMPTS : Nat := 3

def TWO_FACTOR_EXIT_CODE : Nat := 2

def TRANSIENT_EXIT_CODE : Nat := 3

/-- Function `mask_email` (script lines 296-307), translated over the character-list
view of strings: `stripped[0]` is the head of `stripped.data`, and
`partition("@")` splits at the first `'@'`. -/
def mask_email (email : Option String) : String :=
  match email with
  | none => "<unknown email>"
  | some e =>
    if e.data.isEmpty then "<unknown email>"
    else
      let stripped := pyStrip e
      if stripped.data.isEmpty then "<unknown email>"
      else if !strContains stripped "@" then
        match stripped.data with
        | [] => "<unknown email>"
        | c :: _ => String.singleton c ++ "***"
      else
        let local_part : String := ⟨stripped.data.takeWhile (fun ch => ch != '@')⟩
        let domain : String := ⟨(stripped.data.dropWhile (fun ch => ch != '@')).drop 1⟩
        if local_part.data.isEmpty then "***@" ++ domain
        else
          match local_part.data with
          | [] => "***@" ++ domain
          | c :: _ => String.singleton c ++ "***@" ++ domain

/-! Cloudflare interstitial wait (script lines 172-194).

The page's `text_content("body", timeout=2000)` probe at each poll is an
oracle `bodyAt : Nat → Except Exc (Option String)`: poll number `k` yields
either a body text (`Option String`, `None` meaning no text) or an
exception.  The script swallows only `PlaywrightTimeoutError` there. -/

/-- Function `has_cloudflare_interstitial` (lines 181-194): a body-text read that
times out counts as "no interstitial"; any other exception propagates;
otherwise scan the lowered text for the four indicator phrases. -/
def cloudflare_indicators : List String :=
  ["checking your browser", "just a moment", "please stand by",
   "ddos protection by cloudflare"]

def has_cloudflare_interstitial (bodyResult : Except Exc (Option String)) :
    Except Exc Bool :=
  match bodyResult with
  | Except.error (Exc.PlaywrightTimeoutError _) => Except.ok false
  | Except.error e => Except.error e
  | Except.ok t =>
    let lowered := pyLower (t.getD "")
    Except.ok (cloudflare_indicators.any (fun ind => strContains lowered ind))

/-- The polling loop of `wait_for_cloudflare` (lines 172-178) under the
discrete-time model in which each iteration consumes exactly one poll
interval: `fuel` is the number of poll intervals remaining before the
30-second deadline, `k` the current poll number.  When the deadline passes
with the interstitial still present the loop raises `TransientPageState`. -/
def wait_go (bodyAt : Nat → Except Exc (Option String)) :
    Nat → Nat → Except Exc Unit
  | 0, _ =>
    Except.error
      (Exc.TransientPageState "Cloudflare interstitial did not clear within timeout.")
  | fuel + 1, k =>
    match has_cloudflare_interstitial (bodyAt k) with
    | Except.error e => Except.error e
    | Except.ok false => Except.ok ()
    | Except.ok true => wait_go bodyAt fuel (k + 1)

/-- Function `wait_for_cloudflare` (lines 172-178): poll every
`CLOUDFLARE_POLL_INTERVAL_SECONDS` until `CLOUDFLARE_TIMEOUT_SECONDS` have
elapsed, i.e. for `30 / 2 = 15` polls. -/
def wait_for_cloudflare (bodyAt : Nat → Except Exc (Option String)) :
    Except Exc Unit :=
  wait_go bodyAt (CLOUDFLARE_TIMEOUT_SECONDS / CLOUDFLARE_POLL_INTERVAL_SECONDS) 0

/-- Function `navigate_to_login` (lines 163-169): a `goto` timeout becomes
`TransientPageState`; other `goto` exceptions propagate; on success the
Cloudflare wait runs. -/
def navigate_to_login (gotoResult : Except Exc Unit)
    (bodyAt : Nat → Except Exc (Option String)) : Except Exc Unit :=
  match gotoResult with
  | Except.error (Exc.PlaywrightTimeoutError _) =>
    Except.error (Exc.TransientPageState "Timed out navigating to login page.")
  | Except.error e => Except.error e
  | Except.ok () => wait_for_cloudflare bodyAt

/-! Challenge detector (script lines 231-272).

`page.locator(sel).count()` probes are an oracle
`count : String → Except Exc Nat`; the body-text read is an oracle value
`body : Except Exc (Option String)`. -/

def twofactor_selectors : List String :=
  ["input[name*=\x27twofactor\x27]", "input[name*=\x272fa\x27]",
   "input[id*=\x27twofactor\x27]", "input[id*=\x272fa\x27]",
   "input[name=\x27token\x27]", "input[name=\x27code\x27]"]

def captcha_selectors : List String :=
  ["iframe[src*=\x27recaptcha\x27]", "iframe[src*=\x27hcaptcha\x27]",
   "div.g-recaptcha", "div.h-captcha"]

/-- One selector probe inside the `try`/`except` of lines 247-259: a count
greater than zero matches; any exception is swallowed (`continue`). -/
def selector_matches (count : String → Except Exc Nat) (sel : String) : Bool :=
  match count sel with
  | Except.ok n => decide (0 < n)
  | Except.error _ => false

/-- The body-text fallback of lines 266-272 applied to an already-read body
text: lower it and search for the challenge phrases. -/
def body_text_challenge (bodyText : String) : Option String :=
  let lowered := pyLower bodyText
  if strContains lowered "two-factor" || strContains lowered "verification code" then
    some "Two-factor authentication challenge detected."
  else if strContains lowered "captcha" then
    some "CAPTCHA challenge detected."
  else none

/-- Function `detect_twofactor_or_captcha` (lines 231-272).  The two selector loops
return on the first matching selector; since every selector of a list yields
the same message, the loop equals `List.any`.  The body read of lines
261-264 swallows only `PlaywrightTimeoutError` (treating the text as
empty); any other exception from it propagates. -/
def detect_twofactor_or_captcha (count : String → Except Exc Nat)
    (body : Except Exc (Option String)) : Except Exc (Option String) :=
  if twofactor_selectors.any (selector_matches count) then
    Except.ok (some "Two-factor authentication challenge detected.")
  else if captcha_selectors.any (selector_matches count) then
    Except.ok (some "CAPTCHA challenge detected.")
  else
    match body with
    | Except.error (Exc.PlaywrightTimeoutError _) => Except.ok (body_text_challenge "")
    | Except.error e => Except.error e
    | Except.ok t => Except.ok (body_text_challenge (t.getD ""))

/-! Login verification (script lines 275-293). -/

def logout_selectors : List String :=
  ["a[href*=\x27logout\x27]", "text=Logout", "text=Log Out"]

/-- Function `login_successful` (lines 275-293): the lowered URL contains
"clientarea" and not "login", or some logout selector has a positive count
(selector exceptions swallowed). -/
def login_successful (url : String) (logoutCount : String → Except Exc Nat) :
    Bool :=
  let u := pyLower url
  if strContains u "clientarea" && !strContains u "login" then true
  else logout_selectors.any (selector_matches logoutCount)

/-! One login attempt (script lines 108-160). -/

def username_selectors : List String :=
  ["input[name=\x27username\x27]", "input[name=\x27email\x27]",
   "#inputEmail", "input[type=\x27email\x27]"]

def password_selectors : List String :=
  ["input[name=\x27password\x27]", "#inputPassword",
   "input[type=\x27password\x27]"]

def submit_selectors : List String :=
  ["button[type=\x27submit\x27]", "button#login", "text=Login"]

/-- Function `fill_first_available_field` (lines 197-211): every failure mode of a
candidate selector (zero count, visibility timeout, any other exception)
means `continue`, so the oracle `ok sel` records whether filling via `sel`
succeeds, and the function returns true when the first succeeding candidate
exists. -/
def fill_first_available_field (ok : String → Bool) (selectors : List String) :
    Bool :=
  selectors.any ok

/-- Function `click_first_available` (lines 214-228), same shape. -/
def click_first_available (ok : String → Bool) (selectors : List String) :
    Bool :=
  selectors.any ok

/-- A page's behaviour during one run of `perform_login_flow`, as the
sequence of oracle answers the flow consumes, in program order. -/
structure PageFlow where
  gotoResult : Except Exc Unit
  navBody : Nat → Except Exc (Option String)
  detCount1 : String → Except Exc Nat
  detBody1 : Except Exc (Option String)
  fillUserOk : String → Bool
  fillPassOk : String → Bool
  clickOk : String → Bool
  loadStateResult : Except Exc Unit
  cfBody2 : Nat → Except Exc (Option String)
  detCount2 : String → Except Exc Nat
  detBody2 : Except Exc (Option String)
  url : String
  logoutCount : String → Except Exc Nat

/-- Function `perform_login_flow` (lines 108-160): navigate (with Cloudflare wait),
first challenge check, fill username, fill password, click submit, wait for
network idle (timeout swallowed, lines 148-152), second Cloudflare wait,
second challenge check, verification.  A failed verification raises a plain
`RuntimeError` (line 160). -/
def perform_login_flow (pf : PageFlow) : Except Exc Unit :=
  match navigate_to_login pf.gotoResult pf.navBody with
  | Except.error e => Except.error e
  | Except.ok () =>
    match detect_twofactor_or_captcha pf.detCount1 pf.detBody1 with
    | Except.error e => Except.error e
    | Except.ok (some m) => Except.error (Exc.TwoFactorOrCaptchaDetected m)
    | Except.ok none =>
      if !fill_first_available_field pf.fillUserOk username_selectors then
        Except.error (Exc.RuntimeError "Unable to locate username/email input field.")
      else if !fill_first_available_field pf.fillPassOk password_selectors then
        Except.error (Exc.RuntimeError "Unable to locate password input field.")
      else if !click_first_available pf.clickOk submit_selectors then
        Except.error (Exc.RuntimeError "Unable to locate login submit button.")
      else
        match
          (match pf.loadStateResult with
           | Except.error (Exc.PlaywrightTimeoutError _) => Except.ok ()
           | r => r) with
        | Except.error e => Except.error e
        | Except.ok () =>
          match wait_for_cloudflare pf.cfBody2 with
          | Except.error e => Except.error e
          | Except.ok () =>
            match detect_twofactor_or_captcha pf.detCount2 pf.detBody2 with
            | Except.error e => Except.error e
            | Except.ok (some m) => Except.error (Exc.TwoFactorOrCaptchaDetected m)
            | Except.ok none =>
              if login_successful pf.url pf.logoutCount then Except.ok ()
              else Except.error (Exc.RuntimeError "Login verification failed.")

/-! Retry orchestrator (script lines 84-105). -/

/-- Observable resource events of `attempt_login_with_retries`. -/
inductive RetryEvent where
  | pageOpen (attempt : Nat)
  | pageClose (attempt : Nat)
  | sleepSeconds (seconds : Nat)
deriving DecidableEq, Repr

/-- The `for attempt in range(1, MAX_ATTEMPTS + 1)` loop of lines 88-101.
`res attempt` is the outcome of `perform_login_flow` on that attempt's
fresh page; `fuel` counts the loop iterations remaining
(`fuel = MAX_ATTEMPTS + 1 - attempt`), `lastError` mirrors `last_error`.
Each attempt opens a page; on success it closes the page and returns (lines
91-93); on `TransientPageState` it records the error, closes the page (line
99) and sleeps 3 seconds when attempts remain (lines 100-101); on any other
exception it closes the page and re-raises (lines 96-98).  After the loop,
the last transient error (or a fallback `RuntimeError`) is raised (lines
103-105). -/
def retryGo (res : Nat → Except Exc Unit) :
    Nat → Nat → Option Exc → Except Exc Unit × List RetryEvent
  | 0, _, lastError =>
    match lastError with
    | some e => (Except.error e, [])
    | none =>
      (Except.error (Exc.RuntimeError "Login attempts exhausted without success."), [])
  | fuel + 1, attempt, _ =>
    match res attempt with
    | Except.ok () =>
      (Except.ok (), [RetryEvent.pageOpen attempt, RetryEvent.pageClose attempt])
    | Except.error (Exc.TransientPageState m) =>
      let sleeps : List RetryEvent :=
        if attempt < MAX_ATTEMPTS then [RetryEvent.sleepSeconds 3] else []
      let rest := retryGo res fuel (attempt + 1) (some (Exc.TransientPageState m))
      (rest.1,
        RetryEvent.pageOpen attempt :: RetryEvent.pageClose attempt :: (sleeps ++ rest.2))
    | Except.error e =>
      (Except.error e, [RetryEvent.pageOpen attempt, RetryEvent.pageClose attempt])

/-- Function `attempt_login_with_retries` (lines 84-105): run the loop from attempt 1
with `MAX_ATTEMPTS` iterations of fuel and no recorded error. -/
def attempt_login_with_retries (res : Nat → Except Exc Unit) :
    Except Exc Unit × List RetryEvent :=
  retryGo res MAX_ATTEMPTS 1 none

/-! Entry point `main` (script lines 35-81). -/

/-- Observable events of `main`: launching the browser (line 52) and calling
`send_telegram_notification` (lines 47, 66, 71, 76, 80) with its arguments. -/
inductive MainEvent where
  | browserLaunch
  | notify (success : Bool) (email : Option String) (reason : String)
deriving DecidableEq, Repr

/-- The `missing` list of line 43: names of the required environment
variables whose values are falsy, in pair order. -/
def missing_names (email password : Option String) : List String :=
  (if truthy email then [] else ["WEBHOSTMOST_EMAIL"]) ++
    (if truthy password then [] else ["WEBHOSTMOST_PASSWORD"])

/-- Function `main` (lines 35-81) over the outcome `loginResult` of
`attempt_login_with_retries`: returns the process exit code and the event
trace.  With credentials missing it notifies and returns 1 before any
browser work; otherwise the browser is launched and the outcome is mapped to
exit codes 0 / `TWO_FACTOR_EXIT_CODE` / `TRANSIENT_EXIT_CODE` / 1 with the
corresponding notification (lines 63-81). -/
def main_run (email password : Option String) (loginResult : Except Exc Unit) :
    Nat × List MainEvent :=
  let missing := missing_names email password
  if !missing.isEmpty then
    (1, [MainEvent.notify false email
          ("Missing credentials: " ++ String.intercalate ", " missing)])
  else
    match loginResult with
    | Except.ok () => (0, [MainEvent.browserLaunch, MainEvent.notify true email ""])
    | Except.error (Exc.TwoFactorOrCaptchaDetected m) =>
      (TWO_FACTOR_EXIT_CODE,
        [MainEvent.browserLaunch,
         MainEvent.notify false email
           (orDefault (compact_text m) "Two-factor or CAPTCHA required.")])
    | Except.error (Exc.TransientPageState m) =>
      (TRANSIENT_EXIT_CODE,
        [MainEvent.browserLaunch,
         MainEvent.notify false email
           (orDefault (compact_text m) "Transient issue encountered.")])
    | Except.error e =>
      (1,
        [MainEvent.browserLaunch,
         MainEvent.notify false email
           ("Unexpected error: " ++ orDefault (compact_text (excStr e)) (excClassName e))])

/-- Equality of modelled outcomes is decidable, so concrete runs of the
embedded code can be checked by evaluation. -/
instance exceptDecEq {ε α : Type} [DecidableEq ε] [DecidableEq α] :
    DecidableEq (Except ε α) := fun a b =>
  match a, b with
  | Except.error e1, Except.error e2 =>
    if h : e1 = e2 then isTrue (by rw [h])
    else isFalse (fun hh => by cases hh; exact h rfl)
  | Except.ok x, Except.ok y =>
    if h : x = y then isTrue (by rw [h])
    else isFalse (fun hh => by cases hh; exact h rfl)
  | Except.error _, Except.ok _ => isFalse (fun hh => by cases hh)
  | Except.ok _, Except.error _ => isFalse (fun hh => by cases hh)

/-- Predicate for notification events in a `main` trace. -/
def isNotify : MainEvent → Bool
  | MainEvent.notify _ _ _ => true
  | MainEvent.browserLaunch => false

/-- Predicate for page open/close events in a retry trace. -/
def isPageEvent : RetryEvent → Bool
  | RetryEvent.pageOpen _ => true
  | RetryEvent.pageClose _ => true
  | RetryEvent.sleepSeconds _ => false

/-- The page trace of `n` completed attempts: each attempt opens its page
and closes it exactly once before the next attempt starts. -/
def pageBlocks : Nat → List RetryEvent
  | 0 => []
  | n + 1 => pageBlocks n ++ [RetryEvent.pageOpen (n + 1), RetryEvent.pageClose (n + 1)]

/-- A concrete page behaviour on which every step of the login flow succeeds
but verification fails: the final URL still contains "login" and no logout
control is present. -/
def pf_verify_fail : PageFlow where
  gotoResult := Except.ok ()
  navBody := fun _ => Except.ok (some "")
  detCount1 := fun _ => Except.ok 0
  detBody1 := Except.ok (some "")
  fillUserOk := fun _ => true
  fillPassOk := fun _ => true
  clickOk := fun _ => true
  loadStateResult := Except.ok ()
  cfBody2 := fun _ => Except.ok (some "")
  detCount2 := fun _ => Except.ok 0
  detBody2 := Except.ok (some "")
  url := "https://client.webhostmost.com/login"
  logoutCount := fun _ => Except.ok 0

example : mask_email (some "a@b.com") = "a***@b.com" := by decide
example : mask_email (some "x") = "x***" := by decide
example : mask_email (some " ") = "<unknown email>" := by decide
example : mask_email (some "@b.com") = "***@b.com" := by decide
example : mask_email none = "<unknown email>" := by decide
example : compact_text "  a   b  " = "a b" := by decide
example : strContains "hello captcha now" "captcha" = true := by decide
example : strContains "hello" "captcha" = false := by decide

/-- The credentials check of line 43 in list form: the `missing` list is
empty exactly when both values are truthy. -/
theorem missing_names_isEmpty (email password : Option String) :
    (missing_names email password).isEmpty = (truthy email && truthy password) := by
  cases he : truthy email <;> cases hp : truthy password <;>
    simp [missing_names, he, hp]

/-- C1: `main` returns exactly one of the four exit codes: with credentials
missing it returns 1; with credentials present it returns 0 exactly when the
login flow succeeds, `TWO_FACTOR_EXIT_CODE` (2) exactly when a
`TwoFactorOrCaptchaDetected` error propagates out of the login flow
(whatever detection path produced its message), `TRANSIENT_EXIT_CODE` (3)
exactly when a `TransientPageState` error propagates, and 1 exactly when any
other exception propagates. -/
theorem main_exit_code_mapping (email password : Option String)
    (lr : Except Exc Unit) :
    ((main_run email password lr).1 = 0 ∨ (main_run email password lr).1 = 1 ∨
      (main_run email password lr).1 = TWO_FACTOR_EXIT_CODE ∨
      (main_run email password lr).1 = TRANSIENT_EXIT_CODE) ∧
    ((truthy email = false ∨ truthy password = false) →
      (main_run email password lr).1 = 1) ∧
    (truthy email = true → truthy password = true →
      (((main_run email password lr).1 = 0 ↔ lr = Except.ok ()) ∧
       ((main_run email password lr).1 = TWO_FACTOR_EXIT_CODE ↔
         ∃ m, lr = Except.error (Exc.TwoFactorOrCaptchaDetected m)) ∧
       ((main_run email password lr).1 = TRANSIENT_EXIT_CODE ↔
         ∃ m, lr = Except.error (Exc.TransientPageState m)) ∧
       ((main_run email password lr).1 = 1 ↔
         ∃ e, lr = Except.error e ∧
           (∀ m, e ≠ Exc.TwoFactorOrCaptchaDetected m) ∧
           (∀ m, e ≠ Exc.TransientPageState m)))) := by
  cases he : truthy email <;> cases hp : truthy password <;>
    rcases lr with e | _ <;> try cases e
  all_goals
    simp [main_run, missing_names, he, hp,
      TWO_FACTOR_EXIT_CODE, TRANSIENT_EXIT_CODE]

/-- Witness for C1 at a concrete run: present credentials and a propagated
two-factor detection yield exit code 2. -/
theorem main_exit_code_mapping_witness :
    (main_run (some "user@example.com") (some "hunter2")
        (Except.error (Exc.TwoFactorOrCaptchaDetected "2FA required"))).1 =
      TWO_FACTOR_EXIT_CODE :=
  (((main_exit_code_mapping (some "user@example.com") (some "hunter2")
        (Except.error (Exc.TwoFactorOrCaptchaDetected "2FA required"))).2.2
      (by decide) (by decide)).2.1).mpr ⟨"2FA required", rfl⟩

/-- C2: with `WEBHOSTMOST_EMAIL` or `WEBHOSTMOST_PASSWORD` absent or empty,
`main` returns exit code 1 and never launches the browser. -/
theorem missing_credentials_exit (email password : Option String)
    (lr : Except Exc Unit)
    (h : truthy email = false ∨ truthy password = false) :
    (main_run email password lr).1 = 1 ∧
      MainEvent.browserLaunch ∉ (main_run email password lr).2 := by
  have hm : (missing_names email password).isEmpty = false := by
    rw [missing_names_isEmpty]
    rcases h with h | h <;> simp [h]
  simp [main_run, hm]

/-- Witness for C2: absent email, empty password. -/
theorem missing_credentials_exit_witness :
    (main_run none (some "") (Except.ok ())).1 = 1 ∧
      MainEvent.browserLaunch ∉ (main_run none (some "") (Except.ok ())).2 :=
  missing_credentials_exit none (some "") (Except.ok ()) (Or.inl rfl)

/-- C10: `send_telegram_notification` is called exactly once on every exit
path of `main`, including the missing-credentials path, where the reason is
"Missing credentials: " followed by the missing variable names. -/
theorem notification_exactly_once (email password : Option String)
    (lr : Except Exc Unit) :
    ((main_run email password lr).2.filter isNotify).length = 1 ∧
      ((truthy email = false ∨ truthy password = false) →
        (main_run email password lr).2 =
          [MainEvent.notify false email
            ("Missing credentials: " ++
              String.intercalate ", " (missing_names email password))]) := by
  cases he : truthy email <;> cases hp : truthy password <;>
    rcases lr with e | _ <;> try cases e
  all_goals simp [main_run, missing_names, he, hp, isNotify]

/-- Witness for C10: with both credentials absent the single notification
names both variables. -/
theorem notification_exactly_once_witness :
    (main_run none none (Except.ok ())).2 =
      [MainEvent.notify false none
        "Missing credentials: WEBHOSTMOST_EMAIL, WEBHOSTMOST_PASSWORD"] :=
  ((notification_exactly_once none none (Except.ok ())).2 (Or.inl rfl)).trans
    (by decide)

/-- A one-character pattern occurs in `l` exactly when the character is a
member of `l`. -/
theorem charsContain_singleton (a : Char) (l : List Char) :
    charsContain [a] l = true ↔ a ∈ l := by
  induction l with
  | nil => simp [charsContain, leadMatch]
  | cons b bs ih =>
    simp [charsContain, leadMatch, ih, eq_comm (a := a) (b := b)]

/-- Splitting a list at a distinguished element on which the predicate
fails, when the predicate holds on everything before it. -/
theorem takeWhile_dropWhile_split (p : Char → Bool) (loc : List Char)
    (a : Char) (dom : List Char) (h : ∀ x ∈ loc, p x = true)
    (ha : p a = false) :
    (loc ++ a :: dom).takeWhile p = loc ∧
      (loc ++ a :: dom).dropWhile p = a :: dom := by
  induction loc with
  | nil => simp [List.takeWhile_cons, List.dropWhile_cons, ha]
  | cons b bs ih =>
    have hb : p b = true := h b (by simp)
    have hrest : ∀ x ∈ bs, p x = true := fun x hx => h x (by simp [hx])
    have ih' := ih hrest
    simp [List.takeWhile_cons, List.dropWhile_cons, hb, ih'.1, ih'.2]

/-- C5 counterexample: on the whitespace-only email `" "` (which has no
`'@'`), the claimed rule "first character plus `***`" would give `" ***"`,
but `mask_email` returns the fixed placeholder. -/
theorem mask_email_whitespace_counterexample :
    mask_email (some " ") = "<unknown email>" ∧
      mask_email (some " ") ≠ String.singleton ' ' ++ "***" := by
  decide

/-- C5 amended: `mask_email` applies the masking rule to the
whitespace-stripped email: `None` and inputs that are empty after stripping
yield the placeholder; a stripped email without `'@'` maps to its first
character plus `***`; a stripped email splitting as `loc ++ "@" ++ dom` at
the first `'@'` maps to the first character of `loc` plus `***@` plus `dom`,
or to `***@` plus `dom` when `loc` is empty. -/
theorem mask_email_characterization :
    (mask_email none = "<unknown email>") ∧
    (∀ s : String, (pyStrip s).data = [] → mask_email (some s) = "<unknown email>") ∧
    (∀ s : String, ∀ c : Char, ∀ cs : List Char,
      (pyStrip s).data = c :: cs → '@' ∉ c :: cs →
      mask_email (some s) = String.singleton c ++ "***") ∧
    (∀ s : String, ∀ loc dom : List Char,
      (pyStrip s).data = loc ++ '@' :: dom → '@' ∉ loc →
      mask_email (some s) =
        (match loc with
         | [] => "***@" ++ String.mk dom
         | c :: _ => String.singleton c ++ "***@" ++ String.mk dom)) ∧
    (mask_email (some "a@b.com") = "a***@b.com") ∧
    (mask_email (some "x") = "x***") ∧
    (mask_email (some " ") = "<unknown email>") := by
  refine ⟨rfl, ?_, ?_, ?_, by decide, by decide, by decide⟩
  · intro s hs
    by_cases he : s.data.isEmpty
    · simp [mask_email, he]
    · simp [mask_email, he, hs]
  · intro s c cs hs hmem
    have he : s.data.isEmpty = false := by
      cases hd : s.data with
      | nil => simp [pyStrip, hd] at hs
      | cons x xs => simp [hd]
    have hcontains : strContains (pyStrip s) "@" = false := by
      have : ('@' ∈ (pyStrip s).data) = False := by
        rw [hs]; exact eq_false hmem
      have h2 := charsContain_singleton '@' (pyStrip s).data
      rw [this] at h2
      simpa [strContains] using Bool.eq_false_iff.mpr (fun hb => (h2.mp hb))
    simp [mask_email, he, hcontains, hs]
  · intro s loc dom hs hmem
    have he : s.data.isEmpty = false := by
      cases hd : s.data with
      | nil => simp [pyStrip, hd] at hs
      | cons x xs => simp [hd]
    have hne : ((pyStrip s).data.isEmpty) = false := by
      rw [hs]; cases loc <;> simp
    have hcontains : strContains (pyStrip s) "@" = true := by
      have hm : '@' ∈ (pyStrip s).data := by rw [hs]; simp
      simpa [strContains] using (charsContain_singleton '@' (pyStrip s).data).mpr hm
    have hsplit :=
      takeWhile_dropWhile_split (fun ch => ch != '@') loc '@' dom
        (fun x hx => by
          simp only [bne_iff_ne, ne_eq, decide_eq_true_eq]
          exact fun hxa => hmem (hxa ▸ hx))
        (by simp)
    have ht : (pyStrip s).data.takeWhile (fun ch => ch != '@') = loc := by
      rw [hs]; exact hsplit.1
    have hd2 : (pyStrip s).data.dropWhile (fun ch => ch != '@') = '@' :: dom := by
      rw [hs]; exact hsplit.2
    cases hloc : loc with
    | nil =>
      subst hloc
      simp [mask_email, he, hne, hcontains, ht, hd2]
    | cons c cs' =>
      subst hloc
      simp [mask_email, he, hne, hcontains, ht, hd2]

/-- Witness for the amended C5 at a concrete input exercising stripping and
the at-sign split. -/
theorem mask_email_characterization_witness :
    mask_email (some " a@b.com ") = "a***@b.com" :=
  (mask_email_characterization.2.2.2.1 " a@b.com " ['a']
      ['b', '.', 'c', 'o', 'm'] (by decide) (by decide)).trans (by decide)

/-- A selector probe matches exactly when its count query returns a
positive count. -/
theorem selector_matches_iff (f : String → Except Exc Nat) (sel : String) :
    selector_matches f sel = true ↔ ∃ n, f sel = Except.ok n ∧ 0 < n := by
  cases h : f sel with
  | ok n => simp [selector_matches, h]
  | error e => simp [selector_matches, h]

/-- C6 counterexample: with no selector matching and the body-text read
raising an exception other than the Playwright timeout, the exception
escapes `detect_twofactor_or_captcha` instead of being treated as "not
present". -/
theorem detect_body_exception_escapes :
    detect_twofactor_or_captcha (fun _ => Except.ok 0)
        (Except.error (Exc.OtherError "Error" "Page closed")) =
      Except.error (Exc.OtherError "Error" "Page closed") := by
  decide

/-- C6 amended: exceptions raised while probing selectors are swallowed and
treated as "not present" (the detector behaves as if the failing probe had
returned count 0); on the body-text fallback path only the Playwright
timeout is swallowed (treated as empty body text), while any other
exception from the body-text read propagates out of the detector when no
selector matched. -/
theorem detect_exception_handling (count : String → Except Exc Nat)
    (body : Except Exc (Option String)) :
    (detect_twofactor_or_captcha count body =
      detect_twofactor_or_captcha
        (fun sel =>
          match count sel with
          | Except.error _ => Except.ok 0
          | r => r) body) ∧
    (∀ m,
      detect_twofactor_or_captcha count (Except.error (Exc.PlaywrightTimeoutError m)) =
        detect_twofactor_or_captcha count (Except.ok (some ""))) ∧
    (∀ e, (∀ m, e ≠ Exc.PlaywrightTimeoutError m) →
      twofactor_selectors.any (selector_matches count) = false →
      captcha_selectors.any (selector_matches count) = false →
      detect_twofactor_or_captcha count (Except.error e) = Except.error e) := by
  refine ⟨?_, fun m => rfl, ?_⟩
  · have hfun :
        selector_matches
          (fun sel =>
            match count sel with
            | Except.error _ => Except.ok 0
            | r => r) = selector_matches count := by
      funext sel
      cases h : count sel <;> simp [selector_matches, h]
    simp [detect_twofactor_or_captcha, hfun]
  · intro e hne h1 h2
    cases e <;>
      first
      | exact absurd rfl (hne _)
      | simp [detect_twofactor_or_captcha, h1, h2]

/-- Witness for the amended C6: a `RuntimeError` from the body-text read
propagates when no selector matches. -/
theorem detect_exception_handling_witness :
    detect_twofactor_or_captcha (fun _ => Except.ok 0)
        (Except.error (Exc.RuntimeError "boom")) =
      Except.error (Exc.RuntimeError "boom") :=
  (detect_exception_handling (fun _ => Except.ok 0)
        (Except.error (Exc.RuntimeError "boom"))).2.2
    (Exc.RuntimeError "boom") (fun _ h => Exc.noConfusion h) (by decide) (by decide)

/-- C7: `detect_twofactor_or_captcha` probes in a fixed order — the
two-factor selector list, then the CAPTCHA selector list, then (only when
no selector matched) a case-insensitive substring search of the body text
for "two-factor" / "verification code" and then "captcha" — returning the
first matching reason, and `none` when nothing matches. -/
theorem detect_probe_order (count : String → Except Exc Nat)
    (body : Except Exc (Option String)) :
    (twofactor_selectors.any (selector_matches count) = true →
      detect_twofactor_or_captcha count body =
        Except.ok (some "Two-factor authentication challenge detected.")) ∧
    (twofactor_selectors.any (selector_matches count) = false →
      captcha_selectors.any (selector_matches count) = true →
      detect_twofactor_or_captcha count body =
        Except.ok (some "CAPTCHA challenge detected.")) ∧
    (∀ t, twofactor_selectors.any (selector_matches count) = false →
      captcha_selectors.any (selector_matches count) = false →
      body = Except.ok (some t) →
      ((strContains (pyLower t) "two-factor" = true ∨
          strContains (pyLower t) "verification code" = true) →
        detect_twofactor_or_captcha count body =
          Except.ok (some "Two-factor authentication challenge detected.")) ∧
      (strContains (pyLower t) "two-factor" = false →
        strContains (pyLower t) "verification code" = false →
        strContains (pyLower t) "captcha" = true →
        detect_twofactor_or_captcha count body =
          Except.ok (some "CAPTCHA challenge detected.")) ∧
      (strContains (pyLower t) "two-factor" = false →
        strContains (pyLower t) "verification code" = false →
        strContains (pyLower t) "captcha" = false →
        detect_twofactor_or_captcha count body = Except.ok none)) := by
  refine ⟨?_, ?_, ?_⟩
  · intro h1
    simp [detect_twofactor_or_captcha, h1]
  · intro h1 h2
    simp [detect_twofactor_or_captcha, h1, h2]
  · intro t h1 h2 hb
    subst hb
    refine ⟨?_, ?_, ?_⟩
    · rintro (hp | hp) <;>
        simp [detect_twofactor_or_captcha, h1, h2, body_text_challenge, hp]
    · intro hp1 hp2 hp3
      simp [detect_twofactor_or_captcha, h1, h2, body_text_challenge, hp1, hp2, hp3]
    · intro hp1 hp2 hp3
      simp [detect_twofactor_or_captcha, h1, h2, body_text_challenge, hp1, hp2, hp3]

/-- Witness for C7: a matching CAPTCHA selector (with no two-factor
selector matching) yields the CAPTCHA reason. -/
theorem detect_probe_order_witness :
    detect_twofactor_or_captcha
        (fun sel => if sel = "div.g-recaptcha" then Except.ok 1 else Except.ok 0)
        (Except.ok (some "hello")) =
      Except.ok (some "CAPTCHA challenge detected.") :=
  (detect_probe_order
        (fun sel => if sel = "div.g-recaptcha" then Except.ok 1 else Except.ok 0)
        (Except.ok (some "hello"))).2.1
    (by decide) (by decide)

/-- C8: `login_successful` holds exactly when the lowered page URL contains
"clientarea" and not "login", or some logout selector reports a positive
count; and when every earlier step of `perform_login_flow` succeeds but
verification fails, the flow raises the plain
`RuntimeError "Login verification failed."` — which is not a
`TransientPageState`, so the retry orchestrator propagates it immediately
instead of retrying. -/
theorem login_verification_terminal :
    (∀ (url : String) (logoutCount : String → Except Exc Nat),
      login_successful url logoutCount = true ↔
        ((strContains (pyLower url) "clientarea" = true ∧
            strContains (pyLower url) "login" = false) ∨
          ∃ sel ∈ logout_selectors, ∃ n, logoutCount sel = Except.ok n ∧ 0 < n)) ∧
    (∀ pf : PageFlow,
      navigate_to_login pf.gotoResult pf.navBody = Except.ok () →
      detect_twofactor_or_captcha pf.detCount1 pf.detBody1 = Except.ok none →
      fill_first_available_field pf.fillUserOk username_selectors = true →
      fill_first_available_field pf.fillPassOk password_selectors = true →
      click_first_available pf.clickOk submit_selectors = true →
      (pf.loadStateResult = Except.ok () ∨
        ∃ m, pf.loadStateResult = Except.error (Exc.PlaywrightTimeoutError m)) →
      wait_for_cloudflare pf.cfBody2 = Except.ok () →
      detect_twofactor_or_captcha pf.detCount2 pf.detBody2 = Except.ok none →
      login_successful pf.url pf.logoutCount = false →
      perform_login_flow pf =
        Except.error (Exc.RuntimeError "Login verification failed.")) ∧
    (∀ m, Exc.RuntimeError "Login verification failed." ≠ Exc.TransientPageState m) ∧
    (∀ res : Nat → Except Exc Unit,
      res 1 = Except.error (Exc.RuntimeError "Login verification failed.") →
      attempt_login_with_retries res =
        (Except.error (Exc.RuntimeError "Login verification failed."),
          [RetryEvent.pageOpen 1, RetryEvent.pageClose 1])) := by
  refine ⟨?_, ?_, fun m h => Exc.noConfusion h, ?_⟩
  · intro url logoutCount
    by_cases hc :
        (strContains (pyLower url) "clientarea" && !strContains (pyLower url) "login") = true
    · rcases Bool.and_eq_true_iff.mp hc with ⟨hc1, hc2⟩
      simp at hc2
      simp [login_successful, hc, hc1, hc2]
    · have hc' := hc
      rw [Bool.and_eq_true_iff] at hc'
      simp [login_successful, hc, List.any_eq_true, selector_matches_iff]
      intro h1 h2
      exact absurd ⟨h1, by simp [h2]⟩ hc'
  · intro pf h1 h2 h3 h4 h5 h6 h7 h8 h9
    rcases h6 with h6 | ⟨m, h6⟩ <;>
      simp [perform_login_flow, h1, h2, h3, h4, h5, h6, h7, h8, h9]
  · intro res h
    simp [attempt_login_with_retries, MAX_ATTEMPTS, retryGo, h]

/-- Witness for C8: the concrete page behaviour `pf_verify_fail` completes
every step but fails verification, and the flow raises the terminal
`RuntimeError`. -/
theorem login_verification_terminal_witness :
    perform_login_flow pf_verify_fail =
      Except.error (Exc.RuntimeError "Login verification failed.") :=
  login_verification_terminal.2.1 pf_verify_fail (by decide) (by decide) (by decide)
    (by decide) (by decide) (Or.inl rfl) (by decide) (by decide) (by decide)

/-- Characterization of the polling loop: when no poll raises a non-timeout
exception, the loop either returns normally or raises the transient error,
and it returns normally exactly when some poll within the remaining fuel
sees the interstitial absent. -/
theorem wait_go_characterization (bodyAt : Nat → Except Exc (Option String))
    (h : ∀ k, ∃ b, has_cloudflare_interstitial (bodyAt k) = Except.ok b) :
    ∀ fuel k0,
      (wait_go bodyAt fuel k0 = Except.ok () ∨
        wait_go bodyAt fuel k0 =
          Except.error (Exc.TransientPageState
            "Cloudflare interstitial did not clear within timeout.")) ∧
      (wait_go bodyAt fuel k0 = Except.ok () ↔
        ∃ j, j < fuel ∧
          has_cloudflare_interstitial (bodyAt (k0 + j)) = Except.ok false) := by
  intro fuel
  induction fuel with
  | zero => intro k0; simp [wait_go]
  | succ f ih =>
    intro k0
    rcases h k0 with ⟨b, hb⟩
    cases b
    · constructor
      · left; simp [wait_go, hb]
      · simp only [wait_go, hb]
        constructor
        · intro _
          exact ⟨0, Nat.succ_pos f, by simpa using hb⟩
        · intro _
          trivial
    · have ih' := ih (k0 + 1)
      have hstep : wait_go bodyAt (f + 1) k0 = wait_go bodyAt f (k0 + 1) := by
        simp [wait_go, hb]
      constructor
      · rw [hstep]; exact ih'.1
      · rw [hstep, ih'.2]
        constructor
        · rintro ⟨j, hj, hjf⟩
          refine ⟨j + 1, by omega, ?_⟩
          rw [show k0 + (j + 1) = k0 + 1 + j by omega]
          exact hjf
        · rintro ⟨j, hj, hjf⟩
          cases j with
          | zero =>
            rw [Nat.add_zero] at hjf
            rw [hb] at hjf
            cases hjf
          | succ j' =>
            refine ⟨j', by omega, ?_⟩
            rw [show k0 + 1 + j' = k0 + (j' + 1) by omega]
            exact hjf

/-- C4: when every body-text probe either succeeds or times out (so
`has_cloudflare_interstitial` itself never raises), `wait_for_cloudflare`
either returns normally or raises `TransientPageState` — the loop always
terminates, after at most `30 / 2 = 15` polls — and it returns normally
exactly when some poll before the 30-second deadline sees the interstitial
absent; otherwise the transient error is raised. -/
theorem wait_for_cloudflare_behaviour (bodyAt : Nat → Except Exc (Option String))
    (h : ∀ k, ∃ b, has_cloudflare_interstitial (bodyAt k) = Except.ok b) :
    (wait_for_cloudflare bodyAt = Except.ok () ∨
      wait_for_cloudflare bodyAt =
        Except.error (Exc.TransientPageState
          "Cloudflare interstitial did not clear within timeout.")) ∧
    (wait_for_cloudflare bodyAt = Except.ok () ↔
      ∃ j, j < CLOUDFLARE_TIMEOUT_SECONDS / CLOUDFLARE_POLL_INTERVAL_SECONDS ∧
        has_cloudflare_interstitial (bodyAt j) = Except.ok false) := by
  have hc :=
    wait_go_characterization bodyAt h
      (CLOUDFLARE_TIMEOUT_SECONDS / CLOUDFLARE_POLL_INTERVAL_SECONDS) 0
  simpa [wait_for_cloudflare] using hc

/-- Witness for C4: a page whose body forever shows "Just a moment..."
exhausts the 30-second deadline and raises the transient error. -/
theorem wait_for_cloudflare_behaviour_witness :
    wait_for_cloudflare (fun _ => Except.ok (some "Just a moment...")) =
      Except.error (Exc.TransientPageState
        "Cloudflare interstitial did not clear within timeout.") := by
  have hconst :
      has_cloudflare_interstitial (Except.ok (some "Just a moment...")) =
        Except.ok true := by decide
  have hne :
      ¬has_cloudflare_interstitial (Except.ok (some "Just a moment...")) =
          Except.ok false := by decide
  have h :=
    wait_for_cloudflare_behaviour (fun _ => Except.ok (some "Just a moment..."))
      (fun _ => ⟨true, hconst⟩)
  rcases h.1 with h1 | h1
  · exfalso
    rcases h.2.mp h1 with ⟨j, _, hjf⟩
    exact absurd hjf hne
  · exact h1

/-- C3: the retry orchestrator has exactly three outcomes per attempt — on
success it returns immediately; on `TransientPageState` it records the
error, sleeps 3 seconds when attempts remain and retries; on any other
exception it propagates immediately — makes at most `MAX_ATTEMPTS = 3`
attempts, and when all three fail transiently it raises the last recorded
transient error.  The seven conjuncts cover every behaviour of
`attempt_login_with_retries`. -/
theorem retry_orchestrator_behaviour (res : Nat → Except Exc Unit) :
    (res 1 = Except.ok () →
      attempt_login_with_retries res =
        (Except.ok (), [RetryEvent.pageOpen 1, RetryEvent.pageClose 1])) ∧
    (∀ e, res 1 = Except.error e → (∀ m, e ≠ Exc.TransientPageState m) →
      attempt_login_with_retries res =
        (Except.error e, [RetryEvent.pageOpen 1, RetryEvent.pageClose 1])) ∧
    (∀ m1, res 1 = Except.error (Exc.TransientPageState m1) →
      res 2 = Except.ok () →
      attempt_login_with_retries res =
        (Except.ok (),
          [RetryEvent.pageOpen 1, RetryEvent.pageClose 1, RetryEvent.sleepSeconds 3,
            RetryEvent.pageOpen 2, RetryEvent.pageClose 2])) ∧
    (∀ m1 e, res 1 = Except.error (Exc.TransientPageState m1) →
      res 2 = Except.error e → (∀ m, e ≠ Exc.TransientPageState m) →
      attempt_login_with_retries res =
        (Except.error e,
          [RetryEvent.pageOpen 1, RetryEvent.pageClose 1, RetryEvent.sleepSeconds 3,
            RetryEvent.pageOpen 2, RetryEvent.pageClose 2])) ∧
    (∀ m1 m2, res 1 = Except.error (Exc.TransientPageState m1) →
      res 2 = Except.error (Exc.TransientPageState m2) →
      res 3 = Except.ok () →
      attempt_login_with_retries res =
        (Except.ok (),
          [RetryEvent.pageOpen 1, RetryEvent.pageClose 1, RetryEvent.sleepSeconds 3,
            RetryEvent.pageOpen 2, RetryEvent.pageClose 2, RetryEvent.sleepSeconds 3,
            RetryEvent.pageOpen 3, RetryEvent.pageClose 3])) ∧
    (∀ m1 m2 e, res 1 = Except.error (Exc.TransientPageState m1) →
      res 2 = Except.error (Exc.TransientPageState m2) →
      res 3 = Except.error e → (∀ m, e ≠ Exc.TransientPageState m) →
      attempt_login_with_retries res =
        (Except.error e,
          [RetryEvent.pageOpen 1, RetryEvent.pageClose 1, RetryEvent.sleepSeconds 3,
            RetryEvent.pageOpen 2, RetryEvent.pageClose 2, RetryEvent.sleepSeconds 3,
            RetryEvent.pageOpen 3, RetryEvent.pageClose 3])) ∧
    (∀ m1 m2 m3, res 1 = Except.error (Exc.TransientPageState m1) →
      res 2 = Except.error (Exc.TransientPageState m2) →
      res 3 = Except.error (Exc.TransientPageState m3) →
      attempt_login_with_retries res =
        (Except.error (Exc.TransientPageState m3),
          [RetryEvent.pageOpen 1, RetryEvent.pageClose 1, RetryEvent.sleepSeconds 3,
            RetryEvent.pageOpen 2, RetryEvent.pageClose 2, RetryEvent.sleepSeconds 3,
            RetryEvent.pageOpen 3, RetryEvent.pageClose 3])) := by
  refine ⟨?_, ?_, ?_, ?_, ?_, ?_, ?_⟩
  · intro h1
    simp [attempt_login_with_retries, MAX_ATTEMPTS, retryGo, h1]
  · intro e h1 hne
    cases e <;>
      first
      | exact absurd rfl (hne _)
      | simp [attempt_login_with_retries, MAX_ATTEMPTS, retryGo, h1]
  · intro m1 h1 h2
    simp [attempt_login_with_retries, MAX_ATTEMPTS, retryGo, h1, h2]
  · intro m1 e h1 h2 hne
    cases e <;>
      first
      | exact absurd rfl (hne _)
      | simp [attempt_login_with_retries, MAX_ATTEMPTS, retryGo, h1, h2]
  · intro m1 m2 h1 h2 h3
    simp [attempt_login_with_retries, MAX_ATTEMPTS, retryGo, h1, h2, h3]
  · intro m1 m2 e h1 h2 h3 hne
    cases e <;>
      first
      | exact absurd rfl (hne _)
      | simp [attempt_login_with_retries, MAX_ATTEMPTS, retryGo, h1, h2, h3]
  · intro m1 m2 m3 h1 h2 h3
    simp [attempt_login_with_retries, MAX_ATTEMPTS, retryGo, h1, h2, h3]

/-- Witness for C3: two transient failures followed by a success retry
twice, sleeping 3 seconds between attempts. -/
theorem retry_orchestrator_behaviour_witness :
    attempt_login_with_retries
        (fun attempt =>
          if attempt < 3 then
            Except.error (Exc.TransientPageState "Cloudflare interstitial did not clear within timeout.")
          else Except.ok ()) =
      (Except.ok (),
        [RetryEvent.pageOpen 1, RetryEvent.pageClose 1, RetryEvent.sleepSeconds 3,
          RetryEvent.pageOpen 2, RetryEvent.pageClose 2, RetryEvent.sleepSeconds 3,
          RetryEvent.pageOpen 3, RetryEvent.pageClose 3]) :=
  (retry_orchestrator_behaviour
        (fun attempt =>
          if attempt < 3 then
            Except.error (Exc.TransientPageState "Cloudflare interstitial did not clear within timeout.")
          else Except.ok ())).2.2.2.2.1
    "Cloudflare interstitial did not clear within timeout."
    "Cloudflare interstitial did not clear within timeout."
    (by decide) (by decide) (by decide)

/-- C9: every attempt closes the page it opened exactly once, before the
next attempt starts or before any outcome propagates: the page events of
any run's trace form consecutive `open i, close i` blocks for attempts
`1..n` with `1 ≤ n ≤ MAX_ATTEMPTS`. -/
theorem page_closed_exactly_once (res : Nat → Except Exc Unit) :
    ∃ n, 1 ≤ n ∧ n ≤ MAX_ATTEMPTS ∧
      (attempt_login_with_retries res).2.filter isPageEvent = pageBlocks n := by
  by_cases ht1 : ∃ m, res 1 = Except.error (Exc.TransientPageState m)
  · rcases ht1 with ⟨m1, h1⟩
    by_cases ht2 : ∃ m, res 2 = Except.error (Exc.TransientPageState m)
    · rcases ht2 with ⟨m2, h2⟩
      refine ⟨3, by omega, by decide, ?_⟩
      rcases h3 : res 3 with e3 | _ <;> try cases e3
      all_goals
        simp [attempt_login_with_retries, MAX_ATTEMPTS, retryGo, h1, h2, h3,
          isPageEvent, pageBlocks]
    · refine ⟨2, by omega, by decide, ?_⟩
      rcases h2 : res 2 with e2 | _
      · have hne : ∀ m, e2 ≠ Exc.TransientPageState m := fun m hm =>
          ht2 ⟨m, by rw [h2, hm]⟩
        cases e2 <;>
          first
          | exact absurd rfl (hne _)
          | simp [attempt_login_with_retries, MAX_ATTEMPTS, retryGo, h1, h2,
              isPageEvent, pageBlocks]
      · simp [attempt_login_with_retries, MAX_ATTEMPTS, retryGo, h1, h2,
          isPageEvent, pageBlocks]
  · refine ⟨1, by omega, by decide, ?_⟩
    rcases h1 : res 1 with e1 | _
    · have hne : ∀ m, e1 ≠ Exc.TransientPageState m := fun m hm =>
        ht1 ⟨m, by rw [h1, hm]⟩
      cases e1 <;>
        first
        | exact absurd rfl (hne _)
        | simp [attempt_login_with_retries, MAX_ATTEMPTS, retryGo, h1,
            isPageEvent, pageBlocks]
    · simp [attempt_login_with_retries, MAX_ATTEMPTS, retryGo, h1,
        isPageEvent, pageBlocks]

end Webhostmost
